import Mathlib

/-!
# MeasureLab measurement-canvas engine: a verification development

A shallow embedding, in Lean 4, of the measurement-canvas engine of the
MeasureLab repository (TypeScript/React/Konva), together with theorems
settling the specification claims about it.

Conventions of the embedding:

* JavaScript numbers are modelled as exact rationals wherever the source
  only adds, subtracts, multiplies, divides and compares, and as real
  numbers wherever the source calls square roots.  Floating-point rounding
  is not modelled; where a claim depends on a numeric inequality the gap is
  far above double-precision rounding error and the finding carries over.
* Division is mathematical total division; the situations in which the
  source would divide by zero are either excluded by hypotheses or flagged
  in the comments of the theorem concerned.
* React state updates become explicit arguments and return values; each
  embedded handler is the pure core of the corresponding source handler.
* Nondeterministic identifiers (the source builds ids from the clock and a
  random suffix) are threaded through as ordinary parameters.

Sources embedded: `src/utils/measurements.ts`, `src/utils/geometry.ts`,
`src/utils/selection.ts`, `src/utils/constants.ts` (the `CANVAS` object),
the coordinate helpers (`calculateImageOffset`,
`pointerToImageCoordinates`, `imageToStageCoordinates`), and the handlers
of the `Viewer` component (`handleWheel`, the length/area branches of
`handleMouseUp`, `isNearFirstPoint`, `getMeasurementsInRect`,
`handleCalibrationSubmit`, the `Ctrl+A` branch of `handleKeyDown`, and the
page filter of `renderedMeasurements`).
-/

namespace MeasureLab

/-- A point `{x, y}`, as in `src/utils/geometry.ts`.  Coordinates are
modelled as exact rationals. -/
structure Point where
  x : ℚ
  y : ℚ

deriving DecidableEq

instance : Inhabited Point := ⟨⟨0, 0⟩⟩

/-- A rectangle `{x, y, width, height}`, as in `src/utils/geometry.ts`. -/
structure Rect where
  x : ℚ
  y : ℚ
  width : ℚ
  height : ℚ

deriving DecidableEq

/-- A `{width, height}` pair (the source passes stage size and image size
as such objects). -/
structure Size where
  width : ℚ
  height : ℚ

deriving DecidableEq

/-! ## Constants (`src/utils/constants.ts`, the `CANVAS` object) -/

/-- `CANVAS.DRAG_THRESHOLD`. -/
def DRAG_THRESHOLD : ℚ := 5

/-- `CANVAS.MIN_SCALE`. -/
def MIN_SCALE : ℚ := 0.1

/-- `CANVAS.MAX_SCALE`. -/
def MAX_SCALE : ℚ := 5

/-- `CANVAS.ZOOM_FACTOR_IN`. -/
def ZOOM_FACTOR_IN : ℚ := 1.1

/-- `CANVAS.ZOOM_FACTOR_OUT`. -/
def ZOOM_FACTOR_OUT : ℚ := 0.9

/-- `CANVAS.COUNT_SIZE`. -/
def COUNT_SIZE : ℚ := 16

/-- `CANVAS.CLOSE_POLYGON_THRESHOLD`. -/
def CLOSE_POLYGON_THRESHOLD : ℚ := 10

/-! ## Coordinate transforms (`src/utils/coordinates.ts`) -/

/-- `calculateImageOffset(stageSize, imageSize, scale)`: the image offset
within stage coordinates; the image is centered within the stage,
accounting for scale. -/
def calculateImageOffset (stageSize : Size) (imageSize : Size) (scale : ℚ) : Point :=
  let scaledWidth := imageSize.width * scale
  let scaledHeight := imageSize.height * scale
  { x := (stageSize.width - scaledWidth) / 2 / scale
    y := (stageSize.height - scaledHeight) / 2 / scale }

/-- `pointerToImageCoordinates(pointerX, pointerY, stagePosition, scale,
imageOffset)`: DOM-pixel pointer position to image coordinates, accounting
for stage scale and pan. -/
def pointerToImageCoordinates (pointerX pointerY : ℚ) (stagePosition : Point)
    (scale : ℚ) (imageOffset : Point) : Point :=
  let stageX := (pointerX - stagePosition.x) / scale
  let stageY := (pointerY - stagePosition.y) / scale
  { x := stageX - imageOffset.x, y := stageY - imageOffset.y }

/-- `imageToStageCoordinates(imageX, imageY, imageOffset)`. -/
def imageToStageCoordinates (imageX imageY : ℚ) (imageOffset : Point) : Point :=
  { x := imageX + imageOffset.x, y := imageY + imageOffset.y }

/-! ## Wheel zoom (`Viewer.handleWheel`) -/

/-- The scale and pan position produced by one wheel-zoom step. -/
structure WheelResult where
  scale : ℚ
  position : Point

deriving DecidableEq

/-- The pure core of `Viewer.handleWheel`: given the current scale and pan
position, the pointer position, and the stage/image sizes, produce the new
scale and pan position.  `deltaYPos` is the sign test `e.evt.deltaY > 0`
of the source (`true` zooms out).  The memoized `imageOffset` consumed by
the handler is recomputed here from its definition
(`calculateImageOffset(stageSize, imageSize, scale)`). -/
def handleWheel (scale : ℚ) (position : Point) (pointer : Point)
    (stageSize imageSize : Size) (deltaYPos : Bool) : WheelResult :=
  let oldScale := scale
  let imageOffset := calculateImageOffset stageSize imageSize oldScale
  let stageX := (pointer.x - position.x) / oldScale
  let stageY := (pointer.y - position.y) / oldScale
  let mousePointTo : Point := { x := stageX - imageOffset.x, y := stageY - imageOffset.y }
  let newScale := if deltaYPos then oldScale * ZOOM_FACTOR_OUT else oldScale * ZOOM_FACTOR_IN
  let clampedScale := max MIN_SCALE (min MAX_SCALE newScale)
  let newImageOffset := calculateImageOffset stageSize imageSize clampedScale
  let newStageX := mousePointTo.x + newImageOffset.x
  let newStageY := mousePointTo.y + newImageOffset.y
  { scale := clampedScale
    position := { x := pointer.x - newStageX * clampedScale
                  y := pointer.y - newStageY * clampedScale } }

/-- The stage-to-device transform applied by the renderer (the Konva
`Stage` is given `scaleX = scaleY = scale` and `x/y = position`): a
stage-space point is scaled by the zoom factor and translated by the pan
position.  `handleWheel` solves exactly this relation for the pan position
(`newPosition = pointer - stageCoords * newScale`). -/
def stageToDeviceCoordinates (stagePoint : Point) (scale : ℚ) (position : Point) : Point :=
  { x := stagePoint.x * scale + position.x, y := stagePoint.y * scale + position.y }

/-! ## Units and calibration (`src/types/index.ts`, `src/utils/measurements.ts`) -/

/-- The `Unit` union type of `src/types/index.ts`:
`'ft' | 'in' | 'm' | 'cm' | 'mm'`.  `in` is a Lean keyword, so the inch
case is spelled `inch`. -/
inductive Unit where
  | ft
  | inch
  | m
  | cm
  | mm

deriving DecidableEq

/-- The string keys of the conversion tables in `convertUnits`: the five
linear units and their squared counterparts (`'ft²'`, `'in²'`, ...). -/
inductive UnitKey where
  | ft
  | inch
  | m
  | cm
  | mm
  | ft2
  | in2
  | m2
  | cm2
  | mm2

deriving DecidableEq

/-- The key of a linear unit (the `Unit` string used directly as a table
key). -/
def unitKey : Unit → UnitKey
  | .ft => .ft
  | .inch => .inch
  | .m => .m
  | .cm => .cm
  | .mm => .mm

/-- `squareUnit(unit)`: the source appends the `²` character to the unit
string. -/
def squareUnit : Unit → UnitKey
  | .ft => .ft2
  | .inch => .in2
  | .m => .m2
  | .cm => .cm2
  | .mm => .mm2

/-- The `toBase` table of `convertUnits` (conversion into feet or square
feet). -/
def toBase : UnitKey → ℚ
  | .ft => 1
  | .inch => 1 / 12
  | .m => 3.28084
  | .cm => 0.0328084
  | .mm => 0.00328084
  | .ft2 => 1
  | .in2 => 1 / 144
  | .m2 => 10.7639
  | .cm2 => 0.00107639
  | .mm2 => 0.0000107639

/-- The `fromBase` table of `convertUnits` (conversion out of feet or
square feet). -/
def fromBase : UnitKey → ℚ
  | .ft => 1
  | .inch => 12
  | .m => 0.3048
  | .cm => 30.48
  | .mm => 304.8
  | .ft2 => 1
  | .in2 => 144
  | .m2 => 0.092903
  | .cm2 => 929.03
  | .mm2 => 92903

/-- `convertUnits(value, fromUnit, toUnit)` of `src/utils/measurements.ts`:
convert to the base unit (feet or square feet) first, then into the target
unit.  The `|| 1` fallbacks of the source are unreachable here because the
key type is total. -/
noncomputable def convertUnits (value : ℝ) (fromUnit toUnit : UnitKey) : ℝ :=

  let baseValue := value * ((toBase fromUnit : ℚ) : ℝ)

  baseValue * ((fromBase toUnit : ℚ) : ℝ)

/-- The `ScaleCalibration` record of `src/types/index.ts`.  The two
distances are real numbers because `pixelDistance` is produced by a square
root. -/
structure ScaleCalibration where
  pixelDistance : ℝ
  realDistance : ℝ
  units : Unit
  isCalibrated : Bool

/-- Euclidean distance between two points (`pointDistance` of
`src/utils/geometry.ts`; `calculateLength` and `handleCalibrationSubmit`
inline the same `Math.sqrt(dx*dx + dy*dy)` expression). -/
noncomputable def pointDistance (p1 p2 : Point) : ℝ :=

  Real.sqrt (((p2.x - p1.x) * (p2.x - p1.x) + (p2.y - p1.y) * (p2.y - p1.y) : ℚ) : ℝ)

/-- The accumulation loop of `calculateLength`: the sum of the Euclidean
distances of consecutive points. -/
noncomputable def totalPixelLength : List Point → ℝ

  | [] => 0

  | [_] => 0

  | p :: q :: rest => pointDistance p q + totalPixelLength (q :: rest)

/-- `calculateLength(points, calibration)` of `src/utils/measurements.ts`. -/
noncomputable def calculateLength (points : List Point)

    (calibration : Option ScaleCalibration) : ℝ :=

  if points.length < 2 then 0

  else

    let totalPixels := totalPixelLength points

    match calibration with

    | none => totalPixels

    | some c =>

      if c.isCalibrated = false then totalPixels

      else

        let scale := c.realDistance / c.pixelDistance

        let realDistance := totalPixels * scale

        convertUnits realDistance (unitKey c.units) UnitKey.ft

/-- The shoelace accumulation loop of `calculateArea`: the signed sum
`Σ (x_i * y_{i+1 mod n} - x_{i+1 mod n} * y_i)`. -/
def shoelaceSum (points : List Point) : ℚ :=
  ((points.zip (points.rotate 1)).map fun pq => pq.1.x * pq.2.y - pq.2.x * pq.1.y).sum

/-- `calculateArea(points, calibration)` of `src/utils/measurements.ts`:
shoelace formula, absolute value, halved; then the calibration scale
squared and the squared-unit conversion table. -/
noncomputable def calculateArea (points : List Point)

    (calibration : Option ScaleCalibration) : ℝ :=

  if points.length < 3 then 0

  else

    let area : ℝ := ((|shoelaceSum points| / 2 : ℚ) : ℝ)

    match calibration with

    | none => area

    | some c =>

      if c.isCalibrated = false then area

      else

        let scale := c.realDistance / c.pixelDistance

        let realArea := area * scale * scale

        convertUnits realArea (squareUnit c.units) UnitKey.ft2

/-- The claim's linear conversion factors (feet-based table): `1` for ft,
`1/12` for in, `3.28084` for m, `0.0328084` for cm, `0.00328084` for mm. -/
def lengthFactor : Unit → ℚ
  | .ft => 1
  | .inch => 1 / 12
  | .m => 3.28084
  | .cm => 0.0328084
  | .mm => 0.00328084

/-- The area conversion factors the code actually applies: the
`toBase` entries for the squared units.  For ft and in these are exactly
the squares of the linear factors; for m, cm and mm they are roundings of
those squares (`10.7639` rather than `3.28084² = 10.7639112656`, etc.). -/
def areaFactor : Unit → ℚ
  | .ft => 1
  | .inch => 1 / 144
  | .m => 10.7639
  | .cm => 0.00107639
  | .mm => 0.0000107639

@[simp] lemma totalPixelLength_nil : totalPixelLength [] = 0 := rfl

@[simp] lemma totalPixelLength_single (p : Point) : totalPixelLength [p] = 0 := rfl

@[simp] lemma totalPixelLength_cons2 (p q : Point) (rest : List Point) :
    totalPixelLength (p :: q :: rest) = pointDistance p q + totalPixelLength (q :: rest) := rfl

/-! ## Measurements (`src/types/index.ts`, finalization in `Viewer`) -/

/-- The `MeasurementType` union: `'length' | 'area' | 'count'`. -/
inductive MeasurementType where
  | length
  | area
  | count

deriving DecidableEq

/-- The tool-specific `data` field of a measurement: `{ points }` for
length/area, `{ point }` for count. -/
inductive MeasurementData where
  | pts (points : List Point)
  | pt (point : Point)

deriving DecidableEq

/-- The `Measurement` record, restricted to the fields the engine claims
are about (`name`, `color`, `category`, `notes`, `groupId` and
`overrideHeight` are owned by external collaborators and carry no
engine semantics). -/
structure Measurement where
  id : String
  type : MeasurementType
  value : ℝ
  units : Unit
  data : MeasurementData
  pageNumber : Option ℕ

/-- The measurement emitted by the length branch of `handleMouseUp`
(also by `finishMeasurement` for the length tool, which builds the same
record): `value` from `calculateLength`, `units` from
`calibration?.units || 'ft'`, the captured points as `data`, and the
active page.  The clock/random id of the source is a parameter. -/
noncomputable def finishLinearMeasurement (id : String) (newPoints : List Point)

    (calibration : Option ScaleCalibration) (activePage : ℕ) : Measurement :=

  { id := id

    type := .length

    value := calculateLength newPoints calibration

    units := match calibration with

             | some c => c.units

             | none => Unit.ft

    data := .pts newPoints

    pageNumber := some activePage }

/-- The measurement emitted by the area branch of `finishMeasurement`:
`value` from `calculateArea`, `units` from `calibration?.units || 'ft'`,
the captured points as `data` (the polygon is implicitly closed; no
closing point is stored), and the active page. -/
noncomputable def finishAreaMeasurement (id : String) (currentPoints : List Point)

    (calibration : Option ScaleCalibration) (activePage : ℕ) : Measurement :=

  { id := id

    type := .area

    value := calculateArea currentPoints calibration

    units := match calibration with

             | some c => c.units

             | none => Unit.ft

    data := .pts currentPoints

    pageNumber := some activePage }

/-! ## Calibration submission (`Viewer.handleCalibrationSubmit`) -/

/-- The pure core of `handleCalibrationSubmit`.  The source guard
`calibrationPoints.length === 2 && calibrationDistance` together with the
`!isNaN(realDistance)` check on `parseFloat(calibrationDistance)` is
modelled by matching on a two-element point list and a `some` parse
result (`none` stands for an empty or non-numeric dialog string).  The
only numeric validation the source performs is `realDistance > 0`;
`pixelDistance` is committed unvalidated. -/
noncomputable def handleCalibrationSubmit (calibrationPoints : List Point)

    (calibrationDistance : Option ℝ) (calibrationUnits : Unit) :

    Option ScaleCalibration :=

  match calibrationPoints, calibrationDistance with

  | [p0, p1], some realDistance =>

    let dx := p1.x - p0.x

    let dy := p1.y - p0.y

    let pixelDistance := Real.sqrt ((dx * dx + dy * dy : ℚ) : ℝ)

    if 0 < realDistance then

      some { pixelDistance := pixelDistance, realDistance := realDistance,

             units := calibrationUnits, isCalibrated := true }

    else none

  | _, _ => none

/-! ## Surface drafts and polygon closing (`Viewer.handleMouseUp`, area
branch; `Viewer.isNearFirstPoint`) -/

/-- `isPointNear(point, target, threshold)` of `src/utils/geometry.ts`. -/
def isPointNear (point target : Point) (threshold : ℝ) : Prop :=
  pointDistance point target ≤ threshold

/-- `Viewer.isNearFirstPoint(point, firstPoint)`: proximity at threshold
`CLOSE_POLYGON_THRESHOLD / scale` (the fixed pixel radius divided by the
current zoom scale). -/
def isNearFirstPoint (scale : ℚ) (point firstPoint : Point) : Prop :=
  isPointNear point firstPoint ((CLOSE_POLYGON_THRESHOLD / scale : ℚ) : ℝ)

/-- Outcome of one click on an open Surface draft. -/
inductive AreaClickResult where
  | draft (currentPoints : List Point)
  | finalized (measurement : Measurement)

open Classical in
/-- The area branch of `handleMouseUp` for an open Surface draft: if at
least 3 points exist and the click is near the first captured point, the
polygon is closed via `finishMeasurement` (whose own `length >= 3` guard
is subsumed); otherwise the click is appended to the draft.
`currentPoints[0]` is `headI` (the branch that reads it guarantees the
list is nonempty). -/
noncomputable def areaClickStep (id : String) (currentPoints : List Point)

    (imagePos : Point) (scale : ℚ) (calibration : Option ScaleCalibration)

    (activePage : ℕ) : AreaClickResult :=

  if 3 ≤ currentPoints.length ∧ isNearFirstPoint scale imagePos currentPoints.headI then

    .finalized (finishAreaMeasurement id currentPoints calibration activePage)

  else

    .draft (currentPoints ++ [imagePos])

/-! ## Selection toggling (`src/utils/selection.ts`) -/

/-- `toggleSelection(currentSelection, measurementId)`: the source copies
the set, then removes the id if present and adds it otherwise.  The
embedding is a pure function on finite string sets, so the source's
"never mutate the argument" discipline corresponds to returning a new set
value. -/
def toggleSelection (currentSelection : Finset String) (measurementId : String) :
    Finset String :=
  if measurementId ∈ currentSelection then currentSelection.erase measurementId
  else insert measurementId currentSelection

/-! ## Geometry predicates (`src/utils/geometry.ts`) -/

/-- `pointInRect(point, rect)`: inclusive-boundary containment after
normalizing a rectangle with negative width/height. -/
def pointInRect (point : Point) (rect : Rect) : Prop :=
  let minX := min rect.x (rect.x + rect.width)
  let maxX := max rect.x (rect.x + rect.width)
  let minY := min rect.y (rect.y + rect.height)
  let maxY := max rect.y (rect.y + rect.height)
  minX ≤ point.x ∧ point.x ≤ maxX ∧ minY ≤ point.y ∧ point.y ≤ maxY

/-- `linesIntersect(p1, p2, p3, p4)`: parametric segment intersection with
tolerance `0.0001`; when the determinant is near zero, a
perpendicular-distance colinearity test (tolerance `0.001`) followed by a
1-D interval overlap check.  The perpendicular distances divide by
`Math.sqrt(...)`; for a degenerate segment `p1 = p2` the source produces
`NaN` (making the test false) whereas total real division yields `0` —
no claim exercises that corner. -/
def linesIntersect (p1 p2 p3 p4 : Point) : Prop :=
  let denom := (p4.y - p3.y) * (p2.x - p1.x) - (p4.x - p3.x) * (p2.y - p1.y)
  if |denom| < 0.0001 then
    let dist1 := ((|(p2.y - p1.y) * p3.x - (p2.x - p1.x) * p3.y + p2.x * p1.y - p2.y * p1.x| : ℚ) : ℝ) /
      Real.sqrt ((((p2.y - p1.y) ^ 2 + (p2.x - p1.x) ^ 2 : ℚ)) : ℝ);
    let dist2 := ((|(p2.y - p1.y) * p4.x - (p2.x - p1.x) * p4.y + p2.x * p1.y - p2.y * p1.x| : ℚ) : ℝ) /
      Real.sqrt ((((p2.y - p1.y) ^ 2 + (p2.x - p1.x) ^ 2 : ℚ)) : ℝ);
    (dist1 < 0.001 ∧ dist2 < 0.001) ∧
      ¬(max p1.x p2.x < min p3.x p4.x ∨ max p3.x p4.x < min p1.x p2.x ∨
        max p1.y p2.y < min p3.y p4.y ∨ max p3.y p4.y < min p1.y p2.y)
  else
    let ua := ((p4.x - p3.x) * (p1.y - p3.y) - (p4.y - p3.y) * (p1.x - p3.x)) / denom;
    let ub := ((p2.x - p1.x) * (p1.y - p3.y) - (p2.y - p1.y) * (p1.x - p3.x)) / denom;
    -0.0001 ≤ ua ∧ ua ≤ 1 + 0.0001 ∧ -0.0001 ≤ ub ∧ ub ≤ 1 + 0.0001

/-- `lineIntersectsRect(p1, p2, rect)`: endpoint containment, the four
exact-colinear on-edge checks (tolerance `0.001`), or crossing one of the
four rectangle edges via `linesIntersect`. -/
def lineIntersectsRect (p1 p2 : Point) (rect : Rect) : Prop :=
  let minX := min rect.x (rect.x + rect.width)
  let maxX := max rect.x (rect.x + rect.width)
  let minY := min rect.y (rect.y + rect.height)
  let maxY := max rect.y (rect.y + rect.height)
  let isOnTopEdge := |p1.y - minY| < 0.001 ∧ |p2.y - minY| < 0.001 ∧
    ((minX ≤ p1.x ∧ p1.x ≤ maxX) ∨ (minX ≤ p2.x ∧ p2.x ≤ maxX) ∨
     (p1.x ≤ minX ∧ maxX ≤ p2.x) ∨ (p2.x ≤ minX ∧ maxX ≤ p1.x))
  let isOnBottomEdge := |p1.y - maxY| < 0.001 ∧ |p2.y - maxY| < 0.001 ∧
    ((minX ≤ p1.x ∧ p1.x ≤ maxX) ∨ (minX ≤ p2.x ∧ p2.x ≤ maxX) ∨
     (p1.x ≤ minX ∧ maxX ≤ p2.x) ∨ (p2.x ≤ minX ∧ maxX ≤ p1.x))
  let isOnLeftEdge := |p1.x - minX| < 0.001 ∧ |p2.x - minX| < 0.001 ∧
    ((minY ≤ p1.y ∧ p1.y ≤ maxY) ∨ (minY ≤ p2.y ∧ p2.y ≤ maxY) ∨
     (p1.y ≤ minY ∧ maxY ≤ p2.y) ∨ (p2.y ≤ minY ∧ maxY ≤ p1.y))
  let isOnRightEdge := |p1.x - maxX| < 0.001 ∧ |p2.x - maxX| < 0.001 ∧
    ((minY ≤ p1.y ∧ p1.y ≤ maxY) ∨ (minY ≤ p2.y ∧ p2.y ≤ maxY) ∨
     (p1.y ≤ minY ∧ maxY ≤ p2.y) ∨ (p2.y ≤ minY ∧ maxY ≤ p1.y))
  pointInRect p1 rect ∨ pointInRect p2 rect ∨
    isOnTopEdge ∨ isOnBottomEdge ∨ isOnLeftEdge ∨ isOnRightEdge ∨
    linesIntersect p1 p2 ⟨minX, minY⟩ ⟨maxX, minY⟩ ∨
    linesIntersect p1 p2 ⟨maxX, minY⟩ ⟨maxX, maxY⟩ ∨
    linesIntersect p1 p2 ⟨maxX, maxY⟩ ⟨minX, maxY⟩ ∨
    linesIntersect p1 p2 ⟨minX, maxY⟩ ⟨minX, minY⟩

/-- `getBoundingBox(points)`: min/max reduction, degenerate zero rect for
an empty input.  The source seeds the reduction with `points[0]` and then
folds over all points. -/
def getBoundingBox (points : List Point) : Rect :=
  match points with
  | [] => ⟨0, 0, 0, 0⟩
  | p :: _ =>
    let minX := points.foldl (fun acc q => min acc q.x) p.x
    let minY := points.foldl (fun acc q => min acc q.y) p.y
    let maxX := points.foldl (fun acc q => max acc q.x) p.x
    let maxY := points.foldl (fun acc q => max acc q.y) p.y
    ⟨minX, minY, maxX - minX, maxY - minY⟩

/-- `rectsIntersect(r1, r2)`: not fully separated along either axis. -/
def rectsIntersect (r1 r2 : Rect) : Prop :=
  ¬(r1.x + r1.width < r2.x ∨ r2.x + r2.width < r1.x ∨
    r1.y + r1.height < r2.y ∨ r2.y + r2.height < r1.y)

/-! ## Page filtering and rectangle hit-testing (`Viewer`) -/

/-- JavaScript truthiness of the optional `pageNumber` field: `undefined`
and `0` are falsy. -/
def pageNumberFalsy : Option ℕ → Bool
  | none => true
  | some n => n == 0

/-- The page filter `m => !m.pageNumber || m.pageNumber === activePage`
shared verbatim by `getMeasurementsInRect`, `renderedMeasurements` and the
select-all branch of `handleKeyDown`. -/
def pageFilter (activePage : ℕ) (m : Measurement) : Bool :=
  pageNumberFalsy m.pageNumber || m.pageNumber == some activePage

/-- The rectangle normalization at the head of `getMeasurementsInRect`
(handles negative width/height). -/
def normalizeRect (rect : Rect) : Rect :=
  ⟨min rect.x (rect.x + rect.width), min rect.y (rect.y + rect.height),
    |rect.width|, |rect.height|⟩

/-- The per-measurement test of the `getMeasurementsInRect` loop: Linear —
any endpoint of a constituent segment inside the rectangle or the segment
intersecting it; Surface — any vertex inside, or the bounding box
intersecting; Count — the `COUNT_SIZE / scale` box centered on the point
intersecting.  A measurement whose `data` shape does not match its `type`
fails the source's `&& measurement.data.points` (resp. `.point`) guard
and is never selected. -/
def measurementInRect (scale : ℚ) (m : Measurement) (normalizedRect : Rect) : Prop :=
  match m.type, m.data with
  | .length, .pts points =>
    ∃ i, i + 1 < points.length ∧
      (pointInRect (points.getD i default) normalizedRect ∨
       pointInRect (points.getD (i + 1) default) normalizedRect ∨
       lineIntersectsRect (points.getD i default) (points.getD (i + 1) default) normalizedRect)
  | .area, .pts points =>
    (∃ p ∈ points, pointInRect p normalizedRect) ∨
      rectsIntersect (getBoundingBox points) normalizedRect
  | .count, .pt p =>
    rectsIntersect
      ⟨p.x - COUNT_SIZE / 2 / scale, p.y - COUNT_SIZE / 2 / scale,
        COUNT_SIZE / scale, COUNT_SIZE / scale⟩ normalizedRect
  | _, _ => False

open Classical in
/-- `Viewer.getMeasurementsInRect(rect, imageX, imageY)`: normalize the
rectangle, keep the measurements passing the page filter, and collect the
ids of those whose geometry meets the rectangle.  The `imageX`/`imageY`
parameters of the source are never read (rectangle and measurements are
compared in image coordinates directly); they are kept here as ignored
arguments. -/
noncomputable def getMeasurementsInRect (rect : Rect) (imageX imageY : ℚ)

    (measurements : List Measurement) (activePage : ℕ) (scale : ℚ) : List String :=

  let normalizedRect := normalizeRect rect

  let pageMeasurements := measurements.filter (pageFilter activePage)

  (pageMeasurements.filter fun m =>

    decide (measurementInRect scale m normalizedRect)).map Measurement.id

/-- The selection update at the tail of the select-mode branch of
`handleMouseUp`: with Shift the hit ids are added to a copy of the
existing selection; otherwise the copy is cleared first, so the hit ids
replace it. -/
def applyRectSelection (shiftKey : Bool) (selectedMeasurementIds : Finset String)
    (selectedIds : List String) : Finset String :=
  if shiftKey then selectedMeasurementIds ∪ selectedIds.toFinset
  else selectedIds.toFinset

/-- The page filter applied by the `renderedMeasurements` memo of
`Viewer`. -/
def renderedMeasurements (measurements : List Measurement) (activePage : ℕ) :
    List Measurement :=
  measurements.filter (pageFilter activePage)

/-- The select-all branch (`Ctrl/Cmd+A`) of `Viewer.handleKeyDown`: the set
of ids of the measurements passing the page filter. -/
def selectAllOnPage (measurements : List Measurement) (activePage : ℕ) :
    Finset String :=
  ((measurements.filter (pageFilter activePage)).map Measurement.id).toFinset

/-- A Count measurement at `(5,5)` on page 1 (concrete test datum of the
specification's selection-rectangle example). -/
def cmA : Measurement := ⟨"A", .count, 1, Unit.ft, .pt ⟨5, 5⟩, some 1⟩

/-- A Count measurement at `(20,20)` on page 1 (concrete test datum of the
specification's selection-rectangle example). -/
def cmB : Measurement := ⟨"B", .count, 1, Unit.ft, .pt ⟨20, 20⟩, some 1⟩

/-- The two-count measurement list of the selection-rectangle example. -/
def msAB : List Measurement := [cmA, cmB]

/-- A measurement with an absent (`undefined`) `pageNumber`. -/
def sampleNoPage : Measurement := ⟨"M", .count, 1, Unit.ft, .pt ⟨5, 5⟩, none⟩


/-- The clamped scale of a wheel step never leaves `[MIN_SCALE, MAX_SCALE]`,
and in particular never vanishes. -/
theorem handleWheel_scale_bounds (scale : ℚ) (position pointer : Point)
    (stageSize imageSize : Size) (deltaYPos : Bool) :
    MIN_SCALE ≤ (handleWheel scale position pointer stageSize imageSize deltaYPos).scale ∧
      (handleWheel scale position pointer stageSize imageSize deltaYPos).scale ≤ MAX_SCALE := by
  unfold handleWheel
  constructor
  · exact le_max_left _ _
  · simp only [max_le_iff]
    refine ⟨by norm_num [MIN_SCALE, MAX_SCALE], min_le_left _ _⟩

/-- C1.  Wheel zoom is anchor-preserving: for every wheel step (either
direction) with the scale within `[MIN_SCALE, MAX_SCALE]`, the image-space
point computed from the pointer position before the step equals the one
computed from the same pointer position after the step, where both the old
and the new image offsets are the centering offsets for their respective
scales.  The quantification over `deltaYPos` and over all in-bounds scales
covers the cases where the new scale is clamped at `MIN_SCALE`
(`scale = MIN_SCALE`, zoom out) or at `MAX_SCALE` (`scale = MAX_SCALE`,
zoom in). -/
theorem handleWheel_anchor_preserving (scale : ℚ) (position pointer : Point)
    (stageSize imageSize : Size) (deltaYPos : Bool)
    (hmin : MIN_SCALE ≤ scale) (hmax : scale ≤ MAX_SCALE) :
    pointerToImageCoordinates pointer.x pointer.y
        (handleWheel scale position pointer stageSize imageSize deltaYPos).position
        (handleWheel scale position pointer stageSize imageSize deltaYPos).scale
        (calculateImageOffset stageSize imageSize
          (handleWheel scale position pointer stageSize imageSize deltaYPos).scale) =
      pointerToImageCoordinates pointer.x pointer.y position scale
        (calculateImageOffset stageSize imageSize scale) := by
  have hcl : (0 : ℚ) <
      (handleWheel scale position pointer stageSize imageSize deltaYPos).scale :=
    lt_of_lt_of_le (by norm_num [MIN_SCALE])
      (handleWheel_scale_bounds scale position pointer stageSize imageSize deltaYPos).1
  unfold handleWheel at hcl ⊢
  simp only [pointerToImageCoordinates, calculateImageOffset, Point.mk.injEq]
  constructor <;> field_simp <;> ring

/-- Witness for C1, at the `MAX_SCALE` clamping boundary: zooming in at
scale `5 = MAX_SCALE` (so the new scale `5 * 1.1` is clamped back to `5`)
preserves the anchor. -/
theorem handleWheel_anchor_preserving_witness :
    MIN_SCALE ≤ (5 : ℚ) ∧ (5 : ℚ) ≤ MAX_SCALE ∧
      pointerToImageCoordinates 400 300
          (handleWheel 5 ⟨0, 0⟩ ⟨400, 300⟩ ⟨800, 600⟩ ⟨100, 100⟩ false).position
          (handleWheel 5 ⟨0, 0⟩ ⟨400, 300⟩ ⟨800, 600⟩ ⟨100, 100⟩ false).scale
          (calculateImageOffset ⟨800, 600⟩ ⟨100, 100⟩
            (handleWheel 5 ⟨0, 0⟩ ⟨400, 300⟩ ⟨800, 600⟩ ⟨100, 100⟩ false).scale) =
        pointerToImageCoordinates 400 300 ⟨0, 0⟩ 5
          (calculateImageOffset ⟨800, 600⟩ ⟨100, 100⟩ 5) :=
  ⟨by norm_num [MIN_SCALE], by norm_num [MAX_SCALE],
    handleWheel_anchor_preserving 5 ⟨0, 0⟩ ⟨400, 300⟩ ⟨800, 600⟩ ⟨100, 100⟩ false
      (by norm_num [MIN_SCALE]) (by norm_num [MAX_SCALE])⟩

/-- C7.  Round-trip of the coordinate transforms: converting a device
point to image space (`pointerToImageCoordinates`: subtract pan, divide by
scale, subtract the image offset), back to stage space
(`imageToStageCoordinates`: add the image offset), and re-applying the
same scale and pan (`stageToDeviceCoordinates`) reproduces the original
device point exactly, for every positive scale and all pan offsets, image
offsets and device points. -/
theorem device_image_round_trip (pointer stagePosition imageOffset : Point)
    (scale : ℚ) (hs : 0 < scale) :
    stageToDeviceCoordinates
        (imageToStageCoordinates
          (pointerToImageCoordinates pointer.x pointer.y stagePosition scale imageOffset).x
          (pointerToImageCoordinates pointer.x pointer.y stagePosition scale imageOffset).y
          imageOffset)
        scale stagePosition = pointer := by
  have hs0 : scale ≠ 0 := ne_of_gt hs
  obtain ⟨px, py⟩ := pointer
  simp only [pointerToImageCoordinates, imageToStageCoordinates, stageToDeviceCoordinates,
    Point.mk.injEq]
  constructor <;> · field_simp; ring

/-- Witness for C7 at a concrete device point, pan, offset and scale. -/
theorem device_image_round_trip_witness :
    (0 : ℚ) < 2 ∧
      stageToDeviceCoordinates
          (imageToStageCoordinates
            (pointerToImageCoordinates (Point.mk 3 7).x (Point.mk 3 7).y ⟨1, 2⟩ 2 ⟨5, 6⟩).x
            (pointerToImageCoordinates (Point.mk 3 7).x (Point.mk 3 7).y ⟨1, 2⟩ 2 ⟨5, 6⟩).y
            ⟨5, 6⟩)
          2 ⟨1, 2⟩ = Point.mk 3 7 :=
  ⟨by norm_num, device_image_round_trip ⟨3, 7⟩ ⟨1, 2⟩ ⟨5, 6⟩ 2 (by norm_num)⟩

/-- C8 (code evaluated at the failing input).  `calculateImageOffset` has
no zero-size short-circuit: with a zero-sized viewport (stage `0 × 0`), a
`100 × 100` image and scale `1` it returns the offset `(-50, -50)`, not
the neutral `(0, 0)` required by the specification's coordinate-degeneracy
rule. -/
theorem calculateImageOffset_zero_viewport_not_neutral :
    calculateImageOffset ⟨0, 0⟩ ⟨100, 100⟩ 1 = Point.mk (-50) (-50) ∧
      calculateImageOffset ⟨0, 0⟩ ⟨100, 100⟩ 1 ≠ Point.mk 0 0 := by
  constructor
  · simp only [calculateImageOffset, Point.mk.injEq]
    norm_num
  · simp only [calculateImageOffset, Point.mk.injEq]
    norm_num

lemma lengthFactor_eq_toBase (u : Unit) : lengthFactor u = toBase (unitKey u) := by
  cases u <;> rfl

lemma areaFactor_eq_toBase (u : Unit) : areaFactor u = toBase (squareUnit u) := by
  cases u <;> rfl

lemma calculateLength_calibrated (points : List Point) (c : ScaleCalibration)
    (hc : c.isCalibrated = true) (h2 : 2 ≤ points.length) :
    calculateLength points (some c) =
      totalPixelLength points * (c.realDistance / c.pixelDistance) *
        ((lengthFactor c.units : ℚ) : ℝ) := by
  rw [lengthFactor_eq_toBase]
  simp only [calculateLength, convertUnits, hc, Nat.not_lt.mpr h2, if_false,
    Bool.true_eq_false, fromBase]
  push_cast
  ring

lemma calculateArea_calibrated (points : List Point) (c : ScaleCalibration)
    (hc : c.isCalibrated = true) (h3 : 3 ≤ points.length) :
    calculateArea points (some c) =
      ((|shoelaceSum points| / 2 : ℚ) : ℝ) * (c.realDistance / c.pixelDistance) ^ 2 *
        ((areaFactor c.units : ℚ) : ℝ) := by
  rw [areaFactor_eq_toBase]
  simp only [calculateArea, convertUnits, hc, Nat.not_lt.mpr h3, if_false,
    Bool.true_eq_false, fromBase]
  push_cast
  ring

lemma calculateLength_uncalibrated (points : List Point)
    (cal : Option ScaleCalibration)
    (h : cal = none ∨ ∃ c, cal = some c ∧ c.isCalibrated = false) :
    calculateLength points cal =
      if 2 ≤ points.length then totalPixelLength points else 0 := by
  rcases h with h | ⟨c, rfl, hc⟩
  · subst h
    by_cases h2 : 2 ≤ points.length
    · simp [calculateLength, Nat.not_lt.mpr h2, h2]
    · simp [calculateLength, Nat.not_le.mp h2, h2]
  · by_cases h2 : 2 ≤ points.length
    · simp [calculateLength, hc, Nat.not_lt.mpr h2, h2]
    · simp [calculateLength, Nat.not_le.mp h2, h2]

lemma calculateArea_uncalibrated (points : List Point)
    (cal : Option ScaleCalibration)
    (h : cal = none ∨ ∃ c, cal = some c ∧ c.isCalibrated = false) :
    calculateArea points cal =
      if 3 ≤ points.length then ((|shoelaceSum points| / 2 : ℚ) : ℝ) else 0 := by
  rcases h with h | ⟨c, rfl, hc⟩
  · subst h
    by_cases h3 : 3 ≤ points.length
    · simp [calculateArea, Nat.not_lt.mpr h3, h3]
    · simp [calculateArea, Nat.not_le.mp h3, h3]
  · by_cases h3 : 3 ≤ points.length
    · simp [calculateArea, hc, Nat.not_lt.mpr h3, h3]
    · simp [calculateArea, Nat.not_le.mp h3, h3]

/-- Evaluation helper: the distance is `r` whenever `r ≥ 0` squares to the
sum of the squared coordinate differences. -/
lemma pointDistance_eval (p q : Point) (r : ℝ) (hr : 0 ≤ r)
    (h : (((q.x - p.x) * (q.x - p.x) + (q.y - p.y) * (q.y - p.y) : ℚ) : ℝ) = r ^ 2) :
    pointDistance p q = r := by
  rw [pointDistance, h, Real.sqrt_sq hr]

/-- C2 (amended).  For every calibrated record, `calculateLength` is the
sum of consecutive Euclidean pixel distances times
`realDistance / pixelDistance` times the feet-based linear factor
(`1`, `1/12`, `3.28084`, `0.0328084`, `0.00328084`), and `calculateArea`
is the absolute halved shoelace sum times the square of
`realDistance / pixelDistance` times the squared-unit table factor
(`1`, `1/144`, `10.7639`, `0.00107639`, `0.0000107639` — the last three
being roundings of, and not exactly, the squares of the linear factors).
With a `null` calibration or `isCalibrated = false` the raw pixel
magnitudes are returned, and `0` for fewer than 2 (length) resp. 3 (area)
points. -/
theorem calculate_values_feet_table :
    (∀ (points : List Point) (c : ScaleCalibration),
        c.isCalibrated = true → 2 ≤ points.length →
        calculateLength points (some c) =
          totalPixelLength points * (c.realDistance / c.pixelDistance) *
            ((lengthFactor c.units : ℚ) : ℝ)) ∧
    (∀ (points : List Point) (c : ScaleCalibration),
        c.isCalibrated = true → 3 ≤ points.length →
        calculateArea points (some c) =
          ((|shoelaceSum points| / 2 : ℚ) : ℝ) * (c.realDistance / c.pixelDistance) ^ 2 *
            ((areaFactor c.units : ℚ) : ℝ)) ∧
    (∀ (points : List Point) (cal : Option ScaleCalibration),
        (cal = none ∨ ∃ c, cal = some c ∧ c.isCalibrated = false) →
        calculateLength points cal =
          if 2 ≤ points.length then totalPixelLength points else 0) ∧
    (∀ (points : List Point) (cal : Option ScaleCalibration),
        (cal = none ∨ ∃ c, cal = some c ∧ c.isCalibrated = false) →
        calculateArea points cal =
          if 3 ≤ points.length then ((|shoelaceSum points| / 2 : ℚ) : ℝ) else 0) ∧
    (∀ (points : List Point) (cal : Option ScaleCalibration),
        points.length < 2 → calculateLength points cal = 0) ∧
    (∀ (points : List Point) (cal : Option ScaleCalibration),
        points.length < 3 → calculateArea points cal = 0) :=
  ⟨calculateLength_calibrated, calculateArea_calibrated,
    fun points cal h => calculateLength_uncalibrated points cal h,
    fun points cal h => calculateArea_uncalibrated points cal h,
    fun _ _ h => by simp [calculateLength, h],
    fun _ _ h => by simp [calculateArea, h]⟩

/-- Witness for C2 (amended), at the specification's own example: points
`[(0,0), (3,4)]` with calibration `{pixelDistance: 10, realDistance: 2,
units: 'ft'}`. -/
theorem calculate_values_feet_table_witness :
    (⟨10, 2, Unit.ft, true⟩ : ScaleCalibration).isCalibrated = true ∧
      2 ≤ ([⟨0, 0⟩, ⟨3, 4⟩] : List Point).length ∧
      calculateLength [⟨0, 0⟩, ⟨3, 4⟩] (some ⟨10, 2, Unit.ft, true⟩) =
        totalPixelLength [⟨0, 0⟩, ⟨3, 4⟩] * ((2 : ℝ) / 10) *
          ((lengthFactor Unit.ft : ℚ) : ℝ) :=
  ⟨rfl, by decide, calculate_values_feet_table.1 _ _ rfl (by decide)⟩

/-- C2 (counterexample).  The claim's phrase "converted by the squares of
these factors" fails for square metres: the unit square with a
metre-calibration of scale `1` gets area `10.7639` (the code's table
constant), which is not the square `3.28084² = 10.7639112656` of the
linear metre factor. -/
theorem calculateArea_meter_factor_not_square :
    calculateArea [⟨0, 0⟩, ⟨1, 0⟩, ⟨1, 1⟩, ⟨0, 1⟩] (some ⟨1, 1, Unit.m, true⟩) =
        (10.7639 : ℝ) ∧
      (10.7639 : ℝ) ≠ (3.28084 : ℝ) ^ 2 := by
  constructor
  · rw [calculateArea_calibrated _ _ rfl (by decide)]
    have hs : shoelaceSum [⟨0, 0⟩, ⟨1, 0⟩, ⟨1, 1⟩, ⟨0, 1⟩] = 2 := by
      simp only [shoelaceSum, List.rotate_cons_succ, List.rotate_zero, List.cons_append,
        List.nil_append, List.zip_cons_cons, List.map_cons, List.sum_cons, List.zip_nil_right,
        List.map_nil, List.sum_nil]
      norm_num
    rw [hs]
    show ((|(2 : ℚ)| / 2 : ℚ) : ℝ) * ((1 : ℝ) / 1) ^ 2 * ((areaFactor Unit.m : ℚ) : ℝ) = _
    norm_num [areaFactor]
  · norm_num

/-- C6 (counterexample).  A finalized Linear measurement over points
`[(0,0), (10,0)]` with calibration `{pixelDistance: 10, realDistance: 1,
units: 'm'}` records `units = 'm'` while its real-world magnitude in
metres is `1`; the stored `value` is `3.28084` (the magnitude converted
to feet), so the value is not expressed in the unit recorded in the
measurement's own `units` field. -/
theorem finalized_value_not_in_units_field :
    (finishLinearMeasurement "m1" [⟨0, 0⟩, ⟨10, 0⟩] (some ⟨10, 1, Unit.m, true⟩) 1).units =
        Unit.m ∧
      totalPixelLength [⟨0, 0⟩, ⟨10, 0⟩] * ((1 : ℝ) / 10) = 1 ∧
      (finishLinearMeasurement "m1" [⟨0, 0⟩, ⟨10, 0⟩] (some ⟨10, 1, Unit.m, true⟩) 1).value =
        (3.28084 : ℝ) ∧
      (3.28084 : ℝ) ≠ 1 := by
  have hd : pointDistance ⟨0, 0⟩ ⟨10, 0⟩ = 10 := by
    apply pointDistance_eval _ _ _ (by norm_num)
    push_cast
    norm_num
  have ht : totalPixelLength [⟨0, 0⟩, ⟨10, 0⟩] = 10 := by
    simp [hd]
  refine ⟨rfl, by rw [ht]; norm_num, ?_, by norm_num⟩
  show calculateLength [⟨0, 0⟩, ⟨10, 0⟩] (some ⟨10, 1, Unit.m, true⟩) = _
  rw [calculateLength_calibrated _ _ rfl (by decide), ht]
  show (10 : ℝ) * ((1 : ℝ) / 10) * ((lengthFactor Unit.m : ℚ) : ℝ) = _
  norm_num [lengthFactor]

/-- C6 (amended).  For every finalized Linear or Surface measurement with
a calibrated record in unit `u`, the measurement's `units` field records
`u`, but the stored `value` is the real-world magnitude in `u`
(pixel magnitude times `realDistance / pixelDistance`) multiplied by the
to-feet conversion factor of `u` — i.e. the value is expressed in feet
(resp. the squared-unit table factor, square feet), agreeing with the
recorded unit only when that factor is `1` (`u = 'ft'`). -/
theorem finalized_value_in_feet (id : String) (points : List Point)
    (c : ScaleCalibration) (page : ℕ) (hc : c.isCalibrated = true) :
    ((finishLinearMeasurement id points (some c) page).units = c.units ∧
      (2 ≤ points.length →
        (finishLinearMeasurement id points (some c) page).value =
          totalPixelLength points * (c.realDistance / c.pixelDistance) *
            ((lengthFactor c.units : ℚ) : ℝ))) ∧
    ((finishAreaMeasurement id points (some c) page).units = c.units ∧
      (3 ≤ points.length →
        (finishAreaMeasurement id points (some c) page).value =
          ((|shoelaceSum points| / 2 : ℚ) : ℝ) * (c.realDistance / c.pixelDistance) ^ 2 *
            ((areaFactor c.units : ℚ) : ℝ))) :=
  ⟨⟨rfl, fun h2 => calculateLength_calibrated points c hc h2⟩,
    ⟨rfl, fun h3 => calculateArea_calibrated points c hc h3⟩⟩

/-- Witness for C6 (amended), with a foot-calibrated record over the
specification's example points. -/
theorem finalized_value_in_feet_witness :
    (⟨10, 2, Unit.ft, true⟩ : ScaleCalibration).isCalibrated = true ∧
      (finishLinearMeasurement "w6" [⟨0, 0⟩, ⟨3, 4⟩] (some ⟨10, 2, Unit.ft, true⟩) 1).units =
        Unit.ft ∧
      2 ≤ ([⟨0, 0⟩, ⟨3, 4⟩] : List Point).length ∧
      (finishLinearMeasurement "w6" [⟨0, 0⟩, ⟨3, 4⟩] (some ⟨10, 2, Unit.ft, true⟩) 1).value =
        totalPixelLength [⟨0, 0⟩, ⟨3, 4⟩] * ((2 : ℝ) / 10) *
          ((lengthFactor Unit.ft : ℚ) : ℝ) :=
  ⟨rfl,
    (finalized_value_in_feet "w6" [⟨0, 0⟩, ⟨3, 4⟩] ⟨10, 2, Unit.ft, true⟩ 1 rfl).1.1,
    by decide,
    (finalized_value_in_feet "w6" [⟨0, 0⟩, ⟨3, 4⟩] ⟨10, 2, Unit.ft, true⟩ 1 rfl).1.2
      (by decide)⟩

/-- C5 (code evaluated at the failing input).  Two coincident calibration
clicks at `(5,5)` with user distance `2` commit a calibration record with
`pixelDistance = 0` and `isCalibrated = true`: the protocol never
validates `pixelDistance > 0`, violating the specified invariant. -/
theorem handleCalibrationSubmit_commits_zero_pixelDistance :
    handleCalibrationSubmit [⟨5, 5⟩, ⟨5, 5⟩] (some 2) Unit.ft =
      some ⟨0, 2, Unit.ft, true⟩ := by
  simp only [handleCalibrationSubmit]
  rw [if_pos (by norm_num : (0 : ℝ) < 2)]
  norm_num [Real.sqrt_zero]

/-- C3.  A click on a Surface draft closes and finalizes the polygon
exactly when it is within `CLOSE_POLYGON_THRESHOLD / scale` of the first
captured point and at least 3 points already exist, and the finalized
geometry stores exactly the draft points (the closing edge back to the
first point is never stored); any other click — in particular every click
on a draft with exactly 2 points, however close to the first point — is
appended as a new vertex. -/
theorem surface_close_requires_three_points (id : String) (pts : List Point)
    (p : Point) (s : ℚ) (cal : Option ScaleCalibration) (page : ℕ) :
    (3 ≤ pts.length ∧ isNearFirstPoint s p pts.headI →
        areaClickStep id pts p s cal page =
          .finalized (finishAreaMeasurement id pts cal page) ∧
        (finishAreaMeasurement id pts cal page).data = .pts pts) ∧
    (¬(3 ≤ pts.length ∧ isNearFirstPoint s p pts.headI) →
        areaClickStep id pts p s cal page = .draft (pts ++ [p])) ∧
    (pts.length = 2 → areaClickStep id pts p s cal page = .draft (pts ++ [p])) := by
  refine ⟨fun h => ⟨?_, rfl⟩, fun h => ?_, fun h2 => ?_⟩
  · unfold areaClickStep
    rw [if_pos h]
  · unfold areaClickStep
    rw [if_neg h]
  · unfold areaClickStep
    rw [if_neg (by rw [h2]; exact fun hand => by omega)]

/-- Witness for C3: on the 2-point draft `[(0,0), (5,0)]` at scale `1`, a
click exactly at the first point (distance `0`, well within the threshold
`10`) is appended as a third vertex rather than closing the polygon. -/
theorem surface_close_requires_three_points_witness :
    ([⟨0, 0⟩, ⟨5, 0⟩] : List Point).length = 2 ∧
      isNearFirstPoint 1 ⟨0, 0⟩ ([⟨0, 0⟩, ⟨5, 0⟩] : List Point).headI ∧
      areaClickStep "w3" [⟨0, 0⟩, ⟨5, 0⟩] ⟨0, 0⟩ 1 none 1 =
        .draft ([⟨0, 0⟩, ⟨5, 0⟩] ++ [⟨0, 0⟩]) :=
  ⟨rfl,
    by
      show isPointNear ⟨0, 0⟩ ⟨0, 0⟩ _
      unfold isPointNear
      rw [pointDistance_eval _ _ 0 le_rfl (by norm_num)]
      norm_num [CLOSE_POLYGON_THRESHOLD],
    (surface_close_requires_three_points "w3" [⟨0, 0⟩, ⟨5, 0⟩] ⟨0, 0⟩ 1 none 1).2.2 rfl⟩

/-- C9.  `toggleSelection` is an involution: toggling the same id twice
yields a set with exactly the same members as the original (and, the
embedding being pure, the argument set itself is never mutated). -/
theorem toggleSelection_involutive (s : Finset String) (m : String) :
    toggleSelection (toggleSelection s m) m = s := by
  unfold toggleSelection
  by_cases h : m ∈ s
  · rw [if_pos h, if_neg (Finset.not_mem_erase m s), Finset.insert_erase h]
  · rw [if_neg h, if_pos (Finset.mem_insert_self m s), Finset.erase_insert h]

lemma mem_getMeasurementsInRect (rect : Rect) (ix iy : ℚ) (ms : List Measurement)
    (a : ℕ) (s : ℚ) (i : String) :
    i ∈ getMeasurementsInRect rect ix iy ms a s ↔
      ∃ m ∈ ms, m.id = i ∧ pageFilter a m = true ∧
        measurementInRect s m (normalizeRect rect) := by
  simp only [getMeasurementsInRect, List.mem_map, List.mem_filter, decide_eq_true_eq]
  constructor
  · rintro ⟨m, ⟨⟨hm, hp⟩, hhit⟩, hid⟩
    exact ⟨m, hm, hid, hp, hhit⟩
  · rintro ⟨m, hm, hid, hp, hhit⟩
    exact ⟨m, ⟨⟨hm, hp⟩, hhit⟩, hid⟩

lemma measurementInRect_count (s : ℚ) (m : Measurement) (p : Point) (r : Rect)
    (hty : m.type = .count) (hdata : m.data = .pt p) :
    measurementInRect s m r ↔
      rectsIntersect
        ⟨p.x - COUNT_SIZE / 2 / s, p.y - COUNT_SIZE / 2 / s,
          COUNT_SIZE / s, COUNT_SIZE / s⟩ r := by
  obtain ⟨mid, mty, mv, mu, md, mpg⟩ := m
  dsimp at hty hdata
  subst hty
  subst hdata
  rfl

/-- C4.  After a rectangle drag in select mode, a Count measurement on the
active page is selected iff the `COUNT_SIZE / scale` box centered on its
point intersects the normalized selection rectangle; concretely, the
rectangle from `(0,0)` to `(10,10)` selects the count at `(5,5)` and
excludes the one at `(20,20)`; and the hit ids are unioned with the
existing selection when Shift is held, replacing it otherwise. -/
theorem rect_selects_count_iff (rect : Rect) (ix iy : ℚ) (ms : List Measurement)
    (a : ℕ) (s : ℚ) (m : Measurement) (p : Point)
    (hnd : (ms.map Measurement.id).Nodup) (hm : m ∈ ms) (hty : m.type = .count)
    (hdata : m.data = .pt p) (hpage : pageFilter a m = true) :
    (m.id ∈ getMeasurementsInRect rect ix iy ms a s ↔
        rectsIntersect
          ⟨p.x - COUNT_SIZE / 2 / s, p.y - COUNT_SIZE / 2 / s,
            COUNT_SIZE / s, COUNT_SIZE / s⟩ (normalizeRect rect)) ∧
    getMeasurementsInRect ⟨0, 0, 10, 10⟩ 0 0 msAB 1 1 = ["A"] ∧
    (∀ (sel : Finset String) (ids : List String) (x : String),
        (x ∈ applyRectSelection true sel ids ↔ x ∈ sel ∨ x ∈ ids) ∧
        (x ∈ applyRectSelection false sel ids ↔ x ∈ ids)) := by
  refine ⟨?_, ?_, fun sel ids x => ⟨?_, ?_⟩⟩
  · rw [mem_getMeasurementsInRect]
    constructor
    · rintro ⟨m2, hm2, hid, hp2, hhit⟩
      have heq : m2 = m := List.inj_on_of_nodup_map hnd hm2 hm hid
      subst heq
      exact (measurementInRect_count s m2 p _ hty hdata).mp hhit
    · intro hr
      exact ⟨m, hm, rfl, hpage, (measurementInRect_count s m p _ hty hdata).mpr hr⟩
  · have hA : measurementInRect 1 cmA (normalizeRect ⟨0, 0, 10, 10⟩) := by
      show rectsIntersect
        ⟨5 - COUNT_SIZE / 2 / 1, 5 - COUNT_SIZE / 2 / 1, COUNT_SIZE / 1, COUNT_SIZE / 1⟩
        (normalizeRect ⟨0, 0, 10, 10⟩)
      norm_num [rectsIntersect, normalizeRect, COUNT_SIZE]
    have hB : ¬measurementInRect 1 cmB (normalizeRect ⟨0, 0, 10, 10⟩) := by
      show ¬rectsIntersect
        ⟨20 - COUNT_SIZE / 2 / 1, 20 - COUNT_SIZE / 2 / 1, COUNT_SIZE / 1, COUNT_SIZE / 1⟩
        (normalizeRect ⟨0, 0, 10, 10⟩)
      norm_num [rectsIntersect, normalizeRect, COUNT_SIZE]
    have hpA : pageFilter 1 cmA = true := rfl
    have hpB : pageFilter 1 cmB = true := rfl
    simp only [getMeasurementsInRect, msAB]
    simp only [List.filter_cons, List.filter_nil, hpA, hpB, decide_eq_true_eq, hA, hB,
      eq_self_iff_true, if_true, if_false, List.map_cons, List.map_nil]
    rfl
  · simp [applyRectSelection, List.mem_toFinset]
  · simp [applyRectSelection, List.mem_toFinset]

/-- Witness for C4, at the specification's example: the rectangle from
`(0,0)` to `(10,10)` over the two-count list, with the count at `(5,5)`
as the probed measurement. -/
theorem rect_selects_count_iff_witness :
    (msAB.map Measurement.id).Nodup ∧ cmA ∈ msAB ∧ cmA.type = .count ∧
      cmA.data = .pt ⟨5, 5⟩ ∧ pageFilter 1 cmA = true ∧
      (cmA.id ∈ getMeasurementsInRect ⟨0, 0, 10, 10⟩ 0 0 msAB 1 1 ↔
        rectsIntersect
          ⟨5 - COUNT_SIZE / 2 / 1, 5 - COUNT_SIZE / 2 / 1, COUNT_SIZE / 1, COUNT_SIZE / 1⟩
          (normalizeRect ⟨0, 0, 10, 10⟩)) :=
  ⟨by simp [msAB, cmA, cmB], by simp [msAB], rfl, rfl, rfl,
    (rect_selects_count_iff ⟨0, 0, 10, 10⟩ 0 0 msAB 1 1 cmA ⟨5, 5⟩
      (by simp [msAB, cmA, cmB]) (by simp [msAB]) rfl rfl rfl).1⟩

/-- C10.  The page filter used by rectangle hit-testing, rendering and
select-all is the same predicate — no `pageNumber`, `pageNumber = 0`
(falsy in the source), or `pageNumber` equal to the active page — so a
measurement is excluded exactly when its `pageNumber` is set, non-zero
and different from the active page, and a measurement with an absent
`pageNumber` passes the filter on every page. -/
theorem page_filter_uniform (ms : List Measurement) (a : ℕ) (m : Measurement)
    (hm : m ∈ ms) :
    (pageFilter a m = true ↔ ¬∃ p, m.pageNumber = some p ∧ p ≠ 0 ∧ p ≠ a) ∧
    (m ∈ renderedMeasurements ms a ↔ pageFilter a m = true) ∧
    ((ms.map Measurement.id).Nodup →
        (m.id ∈ selectAllOnPage ms a ↔ pageFilter a m = true) ∧
        ∀ rect ix iy s,
          m.id ∈ getMeasurementsInRect rect ix iy ms a s ↔
            pageFilter a m = true ∧ measurementInRect s m (normalizeRect rect)) ∧
    (m.pageNumber = none → pageFilter a m = true) := by
  refine ⟨?_, ?_, fun hnd => ⟨?_, fun rect ix iy s => ?_⟩, fun hnone => ?_⟩
  · rcases hpg : m.pageNumber with _ | n
    · simp [pageFilter, pageNumberFalsy, hpg]
    · simp only [pageFilter, pageNumberFalsy, hpg, Bool.or_eq_true, beq_iff_eq,
        Option.some.injEq]
      constructor
      · rintro (rfl | rfl) ⟨p, hp, hp0, hpa⟩ <;> exact absurd hp.symm (by tauto)
      · intro h
        by_cases h0 : n = 0
        · exact Or.inl h0
        · by_cases ha : n = a
          · exact Or.inr ha
          · exact absurd ⟨n, rfl, h0, ha⟩ h
  · simp [renderedMeasurements, List.mem_filter, hm]
  · simp only [selectAllOnPage, List.mem_toFinset, List.mem_map, List.mem_filter]
    constructor
    · rintro ⟨m2, ⟨hm2, hp2⟩, hid⟩
      have heq : m2 = m := List.inj_on_of_nodup_map hnd hm2 hm hid
      subst heq
      exact hp2
    · intro h
      exact ⟨m, ⟨hm, h⟩, rfl⟩
  · rw [mem_getMeasurementsInRect]
    constructor
    · rintro ⟨m2, hm2, hid, hp2, hhit⟩
      have heq : m2 = m := List.inj_on_of_nodup_map hnd hm2 hm hid
      subst heq
      exact ⟨hp2, hhit⟩
    · rintro ⟨hp, hhit⟩
      exact ⟨m, hm, rfl, hp, hhit⟩
  · simp [pageFilter, pageNumberFalsy, hnone]

/-- Witness for C10: a measurement with an absent `pageNumber` passes the
filter for page `7` and appears in the rendered list. -/
theorem page_filter_uniform_witness :
    sampleNoPage ∈ ([sampleNoPage] : List Measurement) ∧
      pageFilter 7 sampleNoPage = true ∧
      (sampleNoPage ∈ renderedMeasurements [sampleNoPage] 7 ↔
        pageFilter 7 sampleNoPage = true) :=
  ⟨List.mem_singleton_self _,
    (page_filter_uniform [sampleNoPage] 7 sampleNoPage
      (List.mem_singleton_self _)).2.2.2 rfl,
    (page_filter_uniform [sampleNoPage] 7 sampleNoPage
      (List.mem_singleton_self _)).2.1⟩


end MeasureLab
